import Mathlib

set_option maxRecDepth 40000

/-!
Verification of `scripts/screenshot.py` (CloudGenix network-as-code).

The script is a linear pipeline: check environment / CLI arguments, load a
YAML config, resolve site and element names to IDs through the vendor SDK,
drive a headless browser through a fixed list of pages taking screenshots,
then emit a tree of Markdown files.  We shallowly embed the script as pure
Lean functions over explicit inputs:

* the process environment and `sys.argv` are explicit values;
* the vendor SDK (name-to-ID lookup dictionaries, interface listings) is an
  explicit `World` record, since its answers are opaque remote data;
* the browser is a `Browser` oracle telling which waits time out and which
  XPath targets exist;
* side effects (prints, directory creation, sleeps, navigation, screenshots,
  file writes, `sys.exit`) become an explicit event trace;
* a Python exception that escapes a function is an `Except.error`; events
  performed before the raise are kept (writer + exception semantics);
* Python `open(path, "w")` fails with `FileNotFoundError` when the parent
  directory does not exist, so the markdown emitter is checked against the
  set of directories created earlier in the run;
* wall-clock timing (`time.perf_counter` and the elapsed-time prints) is not
  modelled; all other prints are kept verbatim.
-/

/-- Characters allowed by the filename sanitizer (line 110 of the script). -/
def FILENAME_VALID_CHARS : String :=
  "-_.() abcdefghijklmnopqrstuvwxyzABCDEFGHIJKLMNOPQRSTUVWXYZ0123456789"

/-- Function `sanitize_filename` (lines 113-119): keep exactly the characters that
occur in `FILENAME_VALID_CHARS`, in order. -/
def sanitize_filename (file_name : String) : String :=
  ⟨file_name.data.filter (fun char => FILENAME_VALID_CHARS.data.contains char)⟩

/-- Spec-side allow-list predicate: the claim describes the allow-list as
the punctuation `-_.() ` (space included) plus ASCII letters and digits. -/
def allowedChar (c : Char) : Bool :=
  c.isAlpha || c.isDigit || "-_.() ".data.contains c

/-- Python `str.strip()` whitespace, restricted to ASCII. -/
def isPySpace (c : Char) : Bool :=
  c = ' ' || c = '\t' || c = '\n' || c = '\r' || c = '\x0b' || c = '\x0c'

/-- Continuation of a Python decimal digit run: digits with single
underscores allowed strictly between digits, accumulating the value. -/
def pyIntDigitsGo : List Char → Nat → Option Nat
  | [], acc => some acc
  | ['_'], _ => none
  | '_' :: d :: rest, acc =>
    if d.isDigit then pyIntDigitsGo rest (acc * 10 + (d.toNat - 48)) else none
  | d :: rest, acc =>
    if d.isDigit then pyIntDigitsGo rest (acc * 10 + (d.toNat - 48)) else none

/-- Digit run of a Python decimal integer literal: digits with single
underscores allowed strictly between digits. Returns the value. -/
def pyIntDigits : List Char → Option Nat
  | [] => none
  | c :: rest =>
    if c.isDigit then pyIntDigitsGo rest (c.toNat - 48) else none

/-- Model of Python `int(s)` on a `str`: strip whitespace, optional sign,
then an underscore-separated digit run; `none` models `ValueError`. -/
def pyInt (s : String) : Option Int :=
  let stripped := (((s.data.dropWhile isPySpace).reverse.dropWhile isPySpace).reverse)
  match stripped with
  | '-' :: rest => (pyIntDigits rest).map (fun n => -(n : Int))
  | '+' :: rest => (pyIntDigits rest).map (fun n => (n : Int))
  | l => (pyIntDigits l).map (fun n => (n : Int))

/-- Function `is_int` (lines 122-132): true iff `int(val)` does not raise. -/
def is_int (val : String) : Bool :=
  (pyInt val).isSome

/-- Python exceptions that the script can raise or catch. -/
inductive PyError where
  | valueError : PyError
  | fileNotFound : String → PyError
deriving DecidableEq, Repr

/-- Observable side effects of the script, in program order. Wall-clock
timer reads and the elapsed-time prints are not modelled. -/
inductive Event where
  | printE : String → Option String → Event
  | navigate : String → Event
  | waitFound : String → String → Event
  | sleep : Int → Event
  | implicitWait : Nat → Event
  | click : String → Event
  | setWindowSize : Nat → Nat → Event
  | saveScreenshot : String → Event
  | mkdir : String → Event
  | writeFile : String → String → Event
  | exitCode : Nat → Event
  | closeBrowser : Event
  | uncaught : PyError → Event
deriving DecidableEq, Repr

/-- Writer-plus-exception semantics: a computation yields the events it
performed (kept even when an exception escapes) and a result or error. -/
def EW (α : Type) : Type := List Event × Except PyError α

/-- Monadic bind for `EW`: events accumulate; an error stops the rest. -/
def ewBind (x : EW α) (f : α → EW β) : EW β :=
  match x.2 with
  | Except.error e => (x.1, Except.error e)
  | Except.ok a => ((x.1 ++ (f a).1 : List Event), (f a).2)

instance : Monad EW where
  pure a := ([], Except.ok a)
  bind := ewBind

/-- Perform events and succeed. -/
def emit (evs : List Event) : EW Unit := (evs, Except.ok ())

/-- Raise a Python exception. -/
def raiseErr (e : PyError) : EW α := ([], Except.error e)

/-- How the browser behaves on this run: which explicit waits expire
(raising `TimeoutException`) and which XPath targets can be found. -/
structure Browser where
  timesOut : String → String → String → Bool
  found : String → Bool

/-- seconds (line 21) -/
def DEFAULT_IMPLICIT_WAIT : Nat := 25

/-- Arguments of `screenshot_page` (line 135), with the Python defaults. -/
structure ShotArgs where
  page_uri : String
  output_filename : String
  waitfor : String := "time"
  waitfor_value : String := "30"
  click_xpath : Option String := none
  click_xpath2 : Option String := none
  load_wait : Nat := 15
  load_tweak_delay : Nat := 1

/-- The warning printed when a wait strategy times out (lines 174-177). -/
def timeoutWarning (a : ShotArgs) : String :=
  "WARNING: Loading Page " ++ a.page_uri ++ ", waiting for " ++ a.waitfor ++
    " \x27" ++ a.waitfor_value ++ "\x27 took longer than " ++ toString a.load_wait ++
    " seconds. Saving data that exists."

/-- Python `str.lower()`, character by character (ASCII case folding,
matching `waitfor.lower()` in the script). -/
def pyLower (s : String) : String :=
  ⟨s.data.map Char.toLower⟩

/-- The `try` block of `screenshot_page` (lines 153-177): navigate, then
apply the wait strategy. A `TimeoutException` from an explicit wait is
caught here and turned into a warning; a `ValueError` from a negative
`time.sleep` argument is not caught and escapes. -/
def tryPhase (br : Browser) (a : ShotArgs) : EW Unit :=
  let nav := Event.navigate a.page_uri
  if pyLower a.waitfor = "class" then
    if br.timesOut a.page_uri "class" a.waitfor_value then
      ([nav, Event.printE (timeoutWarning a) (some "yellow")], Except.ok ())
    else
      ([nav, Event.waitFound "class" a.waitfor_value], Except.ok ())
  else if pyLower a.waitfor = "id" then
    if br.timesOut a.page_uri "id" a.waitfor_value then
      ([nav, Event.printE (timeoutWarning a) (some "yellow")], Except.ok ())
    else
      ([nav, Event.waitFound "id" a.waitfor_value], Except.ok ())
  else if pyLower a.waitfor = "time" then
    if is_int a.waitfor_value then
      match pyInt a.waitfor_value with
      | some n =>
        if n < 0 then ([nav], Except.error PyError.valueError)
        else ([nav, Event.sleep n], Except.ok ())
      | none => ([nav], Except.ok ())
    else ([nav], Except.ok ())
  else
    ([nav], Except.ok ())

/-- One optional click attempt (lines 185-205): events, requested count,
succeeded count. A miss (`IndexError`) is swallowed. -/
def clickAttempt (br : Browser) (xp : Option String) : List Event × Nat × Nat :=
  match xp with
  | none => ([], 0, 0)
  | some x => if br.found x then ([Event.click x], 1, 1) else ([], 1, 0)

/-- Python truthiness of an optional string (`None` and `""` are falsy). -/
def pyTruthy (o : Option String) : Bool :=
  match o with
  | none => false
  | some s => !(s = "")

/-- Everything of `screenshot_page` after the `try` block (lines 179-218):
the two best-effort clicks, the click status line, restoring the implicit
wait, the settle delay and the screenshot write. -/
def shotTail (br : Browser) (a : ShotArgs) : List Event :=
  let c1 := clickAttempt br a.click_xpath
  let c2 := clickAttempt br a.click_xpath2
  let statusEvs :=
    if pyTruthy a.click_xpath || pyTruthy a.click_xpath2 then
      [Event.printE ("Click(" ++ toString (c1.2.2 + c2.2.2) ++ " of " ++
        toString (c1.2.1 + c2.2.1) ++ " succeeded) ") none]
    else []
  [Event.implicitWait 0] ++ c1.1 ++ c2.1 ++ statusEvs ++
    [Event.implicitWait DEFAULT_IMPLICIT_WAIT,
     Event.sleep (a.load_tweak_delay : Int),
     Event.saveScreenshot a.output_filename]

/-- Function `screenshot_page` (lines 135-218). -/
def screenshot_page (br : Browser) (a : ShotArgs) : EW Unit :=
  match tryPhase br a with
  | (evs, Except.error e) => (evs, Except.error e)
  | (evs, Except.ok _) => (evs ++ shotTail br a, Except.ok ())

/-- Fixed portal URL builders (lines 88-102), as functions of the region
and the interpolated IDs. -/
def UI_TOPOLOGY_PAGE (region : String) : String :=
  "https://portal." ++ region ++ ".cloudgenix.com/#map"

def UI_SITE_PAGE (region site_id : String) : String :=
  "https://portal." ++ region ++ ".cloudgenix.com/#map/site/" ++ site_id

def uiElementPage (region element_id tail : String) : String :=
  "https://portal." ++ region ++ ".cloudgenix.com/#element/config/" ++ element_id ++ "/" ++ tail

def UI_ELEMENT_BASIC (region element_id : String) : String :=
  uiElementPage region element_id "basic_info"

def UI_ELEMENT_TOOLKIT (region element_id : String) : String :=
  uiElementPage region element_id "device_toolkit"

def UI_ELEMENT_INTERFACES (region element_id : String) : String :=
  uiElementPage region element_id "interfaces"

def UI_ELEMENT_BGPPEERS (region element_id : String) : String :=
  uiElementPage region element_id "routing/bgp:peers"

def UI_ELEMENT_BGPROUTEMAPS (region element_id : String) : String :=
  uiElementPage region element_id "routing/bgp:route_maps"

def UI_ELEMENT_BGPPREFIXLISTS (region element_id : String) : String :=
  uiElementPage region element_id "routing/bgp:prefix_lists"

def UI_ELEMENT_BGPASPATHACL (region element_id : String) : String :=
  uiElementPage region element_id "routing/bgp:as_path_lists"

def UI_ELEMENT_BGPIPCOMMUNITYLISTS (region element_id : String) : String :=
  uiElementPage region element_id "routing/bgp:ip_community_lists"

def UI_ELEMENT_STATICROUTES (region element_id : String) : String :=
  uiElementPage region element_id "routing/static_routes"

def UI_ELEMENT_SNMP (region element_id : String) : String :=
  uiElementPage region element_id "snmp"

def UI_ELEMENT_SYSLOG (region element_id : String) : String :=
  uiElementPage region element_id "syslog_export"

def UI_ELEMENT_NTP (region element_id : String) : String :=
  uiElementPage region element_id "ntp_client"

def UI_INTERFACES_DETAIL (region element_id interface_id : String) : String :=
  uiElementPage region element_id ("interfaces/" ++ interface_id)

/-- XPath constants (lines 104-108). -/
def XPATH_1_INTERFACE_EXPANDS : String :=
  "/html/body/div[1]/section/div/div[2]/div/div/div[2]/div/div/div[3]/div/div/form/div[2]/div/div/div[1]/a"

def XPATH_2_INTERFACE_EXPANDS : String :=
  "/html/body/div[1]/section/div/div[2]/div/div/div[2]/div/div/div[3]/div/div/form/div[3]/div/div/div[1]/a"

def XPATH_CLOSE_WHATS_NEW : String :=
  "/html/body/div[1]/div[4]/div/div/img"

/-- One interface record as returned by `sdk.get.interfaces` +
`extract_items`: the script reads only `id` and `name`. -/
structure InterfaceRecord where
  id : String
  name : String
deriving DecidableEq, Repr

/-- The remote API data for one run: the two name-to-ID lookup
dictionaries and the per-(site, element) interface listings, all opaque
answers of the vendor SDK. -/
structure World where
  region : String
  sites_n2id : List (String × String)
  elements_n2id : List (String × String)
  interfaces : String → String → List InterfaceRecord

/-- Markdown record for one interface (lines 452-455). -/
structure MdIface where
  name : String
  fs_name : String
deriving DecidableEq, Repr

/-- Markdown record for one element (lines 337-341). -/
structure MdElement where
  name : String
  fs_name : String
  interfaces : List MdIface
deriving DecidableEq, Repr

/-- Markdown record for one site (lines 314-318). -/
structure MdSite where
  name : String
  fs_name : String
  elements : List MdElement
deriving DecidableEq, Repr

/-- One element-page screenshot block of the main loop: label print,
`screenshot_page` with a class wait, "Done" print. -/
def elemShot (br : Browser) (element_name label uri filename value : String)
    (lw : Nat) : EW Unit := do
  emit [Event.printE ("      Taking Screenshot of Element \x27" ++ element_name ++
    "\x27 " ++ label) none]
  screenshot_page br
    { page_uri := uri, output_filename := filename,
      waitfor := "class", waitfor_value := value, load_wait := lw }
  emit [Event.printE "Done" (some "green")]

/-- The per-interface screenshot loop (lines 447-466): for each sorted
interface record, print, screenshot with the two expand clicks, and build
the markdown interface record. -/
def interfacesLoop (br : Browser) (region element_id interface_directory : String) :
    List InterfaceRecord → EW (List MdIface)
  | [] => pure []
  | r :: rest => do
    emit [Event.printE ("        Taking Screenshot of Interface \x27" ++ r.name ++
      "\x27 Configuration: ") none]
    screenshot_page br
      { page_uri := UI_INTERFACES_DETAIL region element_id r.id,
        output_filename := interface_directory ++ sanitize_filename r.name ++ ".png",
        waitfor := "class", waitfor_value := "collapsible-form__toggle",
        click_xpath := some XPATH_1_INTERFACE_EXPANDS,
        click_xpath2 := some XPATH_2_INTERFACE_EXPANDS }
    emit [Event.printE "Done" (some "green")]
    let mds ← interfacesLoop br region element_id interface_directory rest
    pure ({ name := r.name, fs_name := sanitize_filename r.name } :: mds)

/-- The interface capture block (lines 435-469): fetch interfaces; with at
least one, sort by name, create the `interfaces` directory, resize the
window, loop, resize back; with zero, do nothing at all. -/
def interfacesCapture (br : Browser) (w : World) (site_id element_id
    element_directory : String) : EW (List MdIface) := do
  let interfaces_unsorted := w.interfaces site_id element_id
  if interfaces_unsorted.length ≥ 1 then do
    let interfaces_cache :=
      interfaces_unsorted.mergeSort (fun a b => a.name ≤ b.name)
    let interface_directory := element_directory ++ "interfaces/"
    emit [Event.mkdir interface_directory, Event.setWindowSize 1920 2160]
    let mds ← interfacesLoop br w.region element_id interface_directory interfaces_cache
    emit [Event.setWindowSize 1920 1080]
    pure mds
  else
    pure []

/-- The body of the element loop (lines 327-472): resolve the element ID
(on a miss, warn and skip, producing no markdown record), create the
element directory, take the twelve element-page screenshots, then capture
the interfaces. -/
def processElement (br : Browser) (w : World) (site_id site_directory : String)
    (element_name : String) : EW (Option MdElement) :=
  match List.lookup element_name w.elements_n2id with
  | none =>
    ([Event.printE ("WARNING: Could not get Element ID for Element " ++
        element_name ++ ", skipping..") (some "yellow")], Except.ok none)
  | some element_id => do
    let element_fs_name := sanitize_filename element_name
    let element_directory := site_directory ++ element_fs_name ++ "/"
    emit [Event.mkdir element_directory]
    elemShot br element_name "Static Routes: "
      (UI_ELEMENT_STATICROUTES w.region element_id)
      (element_directory ++ "static_routes.png") "static-routing-table" 60
    elemShot br element_name "Basic Config: "
      (UI_ELEMENT_BASIC w.region element_id)
      (element_directory ++ "basic_info.png") "form-group" 15
    elemShot br element_name "BGP Peers: "
      (UI_ELEMENT_BGPPEERS w.region element_id)
      (element_directory ++ "bgp_peers.png") "bgpPeersTable" 15
    elemShot br element_name "Device Toolkit: "
      (UI_ELEMENT_TOOLKIT w.region element_id)
      (element_directory ++ "device_toolkit.png") "form-group" 15
    elemShot br element_name "BGP Route Maps: "
      (UI_ELEMENT_BGPROUTEMAPS w.region element_id)
      (element_directory ++ "bgp_route_maps.png") "routeMapsTable" 15
    emit [Event.printE ("      Taking Screenshot of Element \x27" ++ element_name ++
      "\x27 Interfaces Summary: ") none, Event.setWindowSize 1920 2160]
    screenshot_page br
      { page_uri := UI_ELEMENT_INTERFACES w.region element_id,
        output_filename := element_directory ++ "interfaces_summary.png",
        waitfor := "class", waitfor_value := "interface_name-wrapper" }
    emit [Event.setWindowSize 1920 1080, Event.printE "Done" (some "green")]
    elemShot br element_name "BGP Prefix Lists: "
      (UI_ELEMENT_BGPPREFIXLISTS w.region element_id)
      (element_directory ++ "bgp_prefix_lists.png") "prefixListsTable" 15
    elemShot br element_name "SNMP: "
      (UI_ELEMENT_SNMP w.region element_id)
      (element_directory ++ "snmp.png") "snmpAgentView" 15
    elemShot br element_name "BGP AS-PATH Access Lists: "
      (UI_ELEMENT_BGPASPATHACL w.region element_id)
      (element_directory ++ "bgp_aspath_acl.png") "asPathListsTable" 15
    elemShot br element_name "SYSLOG:  "
      (UI_ELEMENT_SYSLOG w.region element_id)
      (element_directory ++ "syslog.png") "syslog-export-table" 15
    elemShot br element_name "BGP IP Community Lists: "
      (UI_ELEMENT_BGPIPCOMMUNITYLISTS w.region element_id)
      (element_directory ++ "bgp_ip_community_lists.png") "ipCommunityListsTable" 15
    elemShot br element_name "NTP: "
      (UI_ELEMENT_NTP w.region element_id)
      (element_directory ++ "ntp.png") "ntp-servers-table" 15
    let ifaces ← interfacesCapture br w site_id element_id element_directory
    pure (some { name := element_name, fs_name := element_fs_name,
                 interfaces := ifaces })

/-- The element loop of one site: skipped elements contribute no markdown
record (line 472 is only reached on the success path). -/
def processElements (br : Browser) (w : World) (site_id site_directory : String) :
    List String → EW (List MdElement)
  | [] => pure []
  | element_name :: rest => do
    let md? ← processElement br w site_id site_directory element_name
    let mds ← processElements br w site_id site_directory rest
    match md? with
    | none => pure mds
    | some md => pure (md :: mds)

/-- The warning printed for a site name missing from the lookup (line 308). -/
def siteSkipWarning (site_name : String) : String :=
  "WARNING: Could not get Site ID for Site " ++ site_name ++ ", skipping.."

/-- The body of the site loop for a resolved site (lines 310-475): make
the site directory, screenshot the site card, process the elements. -/
def processSiteKnown (br : Browser) (w : World) (site_name site_id : String)
    (elements_list : List String) : EW MdSite := do
  let site_fs_name := sanitize_filename site_name
  let site_directory := "screenshots/" ++ site_fs_name ++ "/"
  emit [Event.mkdir site_directory,
    Event.printE ("    Taking Screenshot of Site \x27" ++ site_name ++
      "\x27 Site Map Card: ") none]
  screenshot_page br
    { page_uri := UI_SITE_PAGE w.region site_id,
      output_filename := site_directory ++ "site-info.png",
      waitfor := "class", waitfor_value := "site-info" }
  emit [Event.printE "Done" (some "green")]
  let elements ← processElements br w site_id site_directory elements_list
  pure { name := site_name, fs_name := site_fs_name, elements := elements }

/-- The site loop (lines 304-475): an unresolved site name only prints a
warning and is skipped; resolved sites are processed in order and appended
to the markdown index. -/
def processSites (br : Browser) (w : World) :
    List (String × List String) → EW (List MdSite)
  | [] => pure []
  | (site_name, elements_list) :: rest =>
    match List.lookup site_name w.sites_n2id with
    | none => do
      emit [Event.printE (siteSkipWarning site_name) (some "yellow")]
      processSites br w rest
    | some site_id => do
      let mdSite ← processSiteKnown br w site_name site_id elements_list
      let mds ← processSites br w rest
      pure (mdSite :: mds)

/-- The topology screenshot taken before the site loop (lines 292-298). -/
def topologyShot (br : Browser) (w : World) : EW Unit := do
  emit [Event.printE "    Logging in and taking topology screenshot: " none]
  screenshot_page br
    { page_uri := UI_TOPOLOGY_PAGE w.region,
      output_filename := "screenshots/map.png",
      waitfor := "class", waitfor_value := "leaflet-map-pane",
      click_xpath := some XPATH_CLOSE_WHATS_NEW, load_tweak_delay := 8 }
  emit [Event.printE "Done" (some "green")]

/-- The CI build metadata picked up from the environment (lines 61-84). -/
structure CIInfo where
  system : Option String
  commit : Option String
  buildId : Option String
  buildUrl : Option String
deriving DecidableEq, Repr

/-- CI detection (lines 61-84): Travis when both Travis variables are
present, else Jenkins when both Jenkins variables are present, else no CI
info at all. `os.environ.get` of a missing variable is `none`. -/
def ciFromEnv (env : List (String × String)) : CIInfo :=
  if (List.lookup "TRAVIS_BUILD_NUMBER" env).isSome &&
      (List.lookup "TRAVIS_BUILD_WEB_URL" env).isSome then
    { system := some "Travis CI", commit := List.lookup "TRAVIS_COMMIT" env,
      buildId := List.lookup "TRAVIS_BUILD_NUMBER" env,
      buildUrl := List.lookup "TRAVIS_BUILD_WEB_URL" env }
  else if (List.lookup "BUILD_ID" env).isSome &&
      (List.lookup "BUILD_URL" env).isSome then
    { system := some "Jenkins", commit := List.lookup "GIT_COMMIT" env,
      buildId := List.lookup "BUILD_NUMBER" env,
      buildUrl := List.lookup "BUILD_URL" env }
  else
    { system := none, commit := none, buildId := none, buildUrl := none }

/-- Python `f"{x}"` of an optional string: `None` prints as "None". -/
def pyShow (o : Option String) : String :=
  match o with
  | none => "None"
  | some s => s

/-- The conditional commit block of every readme template:
present only when `CI_COMMIT` is truthy. -/
def ciCommitBlock (ci : CIInfo) : String :=
  if pyTruthy ci.commit then "\n\ncommit: " ++ pyShow ci.commit else ""

/-- The conditional build-id/build-URL block of every readme template:
present only when `CI_SYSTEM` is truthy. -/
def ciSystemBlock (ci : CIInfo) : String :=
  if pyTruthy ci.system then
    "\n\n" ++ pyShow ci.system ++ " job id: [" ++ pyShow ci.buildId ++ "](" ++
      pyShow ci.buildUrl ++ ")"
  else ""

/-- Constant remainder of the site readme header (lines 492-498). -/
def SITE_README_TAIL : String :=
  "\n\n[Back To Topology](../README.md)\n<img alt=\"Site Card\" src=\"site-info.png?raw=1\" width=\"1110\">\n\n### Elements\n<ul>\n"

/-- Header of the site readme (lines 486-498). -/
def site_readme_header (ci : CIInfo) (name : String) : String :=
  "## Site: " ++ name ++ ciCommitBlock ci ++ ciSystemBlock ci ++ SITE_README_TAIL

/-- Per-element list item appended to the site readme (lines 589-593). -/
def siteElementItem (e : MdElement) : String :=
  "<li>\n<A href=\"" ++ e.fs_name ++ "/README.md\">" ++ e.name ++ "</A>\n</li>\n"

/-- The complete site readme (header, one item per element, list close). -/
def site_readme_full (ci : CIInfo) (site : MdSite) : String :=
  site_readme_header ci site.name ++
    String.join (site.elements.map siteElementItem) ++ "</ul>\n"

/-- Constant remainder of the element readme (lines 508-552). -/
def ELEMENT_README_TAIL : String :=
  "\n\n[Back To Site](../README.md)\n\n### Interfaces\n<ul>\n<li>\n<A href=\"interfaces/README.md\">Interfaces Detail</A>\n</li>\n</ul>\n<img alt=\"Interfaces Summary\" src=\"interfaces_summary.png?raw=1\" width=\"1110\">\n\n### Basic Info\n<img alt=\"Basic Info\" src=\"basic_info.png?raw=1\" width=\"1110\">\n\n### Device Toolkit\n<img alt=\"Device Toolkit\" src=\"device_toolkit.png?raw=1\" width=\"1110\">\n\n### Routing/BGP Peers\n<img alt=\"BGP Peers\" src=\"bgp_peers.png?raw=1\" width=\"1110\">\n\n### Routing/BGP Route Maps\n<img alt=\"BGP Route Maps\" src=\"bgp_route_maps.png?raw=1\" width=\"1110\">\n\n### Routing/BGP AS-Path Access Lists\n<img alt=\"BGP Peers\" src=\"bgp_aspath_acl.png?raw=1\" width=\"1110\">\n\n### Routing/BGP Prefix Lists\n<img alt=\"BGP Peers\" src=\"bgp_prefix_lists.png?raw=1\" width=\"1110\">\n\n### Routing/BGP Peers\n<img alt=\"BGP Peers\" src=\"bgp_ip_community_lists.png?raw=1\" width=\"1110\">\n\n### Routing/Static\n<img alt=\"Static Routes\" src=\"static_routes.png?raw=1\" width=\"1110\">\n\n### SNMP\n<img alt=\"SNMP\" src=\"snmp.png?raw=1\" width=\"1110\">\n\n### SYSLOG\n<img alt=\"SYSLOG\" src=\"syslog.png?raw=1\" width=\"1110\">\n\n### NTP\n<img alt=\"NTP\" src=\"ntp.png?raw=1\" width=\"1110\">\n\n"

/-- The element readme (lines 502-552): header plus fixed image sections,
nothing dynamic beyond the element name and the CI blocks. -/
def element_readme_md (ci : CIInfo) (name : String) : String :=
  "## Element: " ++ name ++ ciCommitBlock ci ++ ciSystemBlock ci ++ ELEMENT_README_TAIL

/-- Constant remainder of the interface readme header (lines 556-565). -/
def INTERFACE_README_TAIL : String :=
  "\n\n[Back To Element](../README.md)\n\n"

/-- Header of the interface readme (lines 556-565). -/
def interface_readme_header (ci : CIInfo) (name : String) : String :=
  "## Element: " ++ name ++ " Interfaces" ++ ciCommitBlock ci ++ ciSystemBlock ci ++
    INTERFACE_README_TAIL

/-- Per-interface section of the interface readme (lines 570-574); the
trailing line of sixteen spaces is in the source template. -/
def interfaceBlock (i : MdIface) : String :=
  "### " ++ i.name ++ "\n<img alt=\"1\" src=\"" ++ i.fs_name ++
    ".png?raw=1\" width=\"1110\">\n                \n"

/-- The complete interface readme for one element. -/
def interface_readme_full (ci : CIInfo) (e : MdElement) : String :=
  interface_readme_header ci e.name ++ String.join (e.interfaces.map interfaceBlock)

/-- Directory part of a path, up to and including the final slash. -/
def parentDir (p : String) : String :=
  ⟨(p.data.reverse.dropWhile (fun c => !(c = '/'))).reverse⟩

/-- Directories created so far in a trace (`mkdir parents=True` events). -/
def dirsCreated (tr : List Event) : List String :=
  tr.filterMap (fun e =>
    match e with
    | Event.mkdir p => some p
    | _ => none)

/-- Python `open(path, "w")` followed by a write: succeeds when the parent
directory exists, otherwise raises `FileNotFoundError` (an `IOError`),
which nothing in the markdown pass catches. -/
def openWrite (created : List String) (path content : String) : EW Unit :=
  if created.contains (parentDir path) then
    ([Event.writeFile path content], Except.ok ())
  else
    ([], Except.error (PyError.fileNotFound path))

/-- The element part of the markdown pass (lines 500-593): for every
element of the site — unconditionally — write the interface readme, then
the element readme, and return the accumulated site list items. -/
def emitElements (ci : CIInfo) (created : List String) (site_fs : String) :
    List MdElement → EW String
  | [] => pure ""
  | e :: rest => do
    let element_readme_filename :=
      "screenshots/" ++ site_fs ++ "/" ++ e.fs_name ++ "/README.md"
    let interface_readme_filename :=
      "screenshots/" ++ site_fs ++ "/" ++ e.fs_name ++ "/interfaces/README.md"
    emit [Event.printE ("      Writing " ++ interface_readme_filename ++ ": ") none]
    openWrite created interface_readme_filename (interface_readme_full ci e)
    emit [Event.printE "Done" (some "green")]
    emit [Event.printE ("      Writing " ++ element_readme_filename ++ ": ") none]
    openWrite created element_readme_filename (element_readme_md ci e.name)
    emit [Event.printE "Done" (some "green")]
    let restItems ← emitElements ci created site_fs rest
    pure (siteElementItem e ++ restItems)

/-- The site part of the markdown pass (lines 484-603). -/
def emitSites (ci : CIInfo) (created : List String) : List MdSite → EW Unit
  | [] => pure ()
  | site :: rest => do
    let site_readme_filename := "screenshots/" ++ site.fs_name ++ "/README.md"
    let items ← emitElements ci created site.fs_name site.elements
    emit [Event.printE ("      Writing " ++ site_readme_filename ++ ": ") none]
    openWrite created site_readme_filename
      (site_readme_header ci site.name ++ items ++ "</ul>\n")
    emit [Event.printE "Done" (some "green")]
    emitSites ci created rest

/-- The `sites_dict` construction, inner loop (lines 256-259): collect the
element names of one site in file order. The element config bodies are
opaque (`β`). -/
def build_elements_list (config_elements : List (String × β)) : List String :=
  config_elements.foldl (fun acc p => acc ++ [p.1]) []

/-- The `sites_dict` construction, outer loop (lines 252-261), over the site
items extracted from the loaded config by the external
`config_lower_version_get` helper. -/
def build_sites_dict (config_sites : List (String × List (String × β))) :
    List (String × List String) :=
  config_sites.foldl (fun acc p => acc ++ [(p.1, build_elements_list p.2)]) []

/-- Process-level inputs of one run. `configSites` is the result of
opening and reading the YAML config: `Except.error` is an `IOError` (the
only exception the script catches there); the per-site element items are
the mapping extracted by the external `cloudgenix_config` collaborator,
with opaque config bodies. -/
structure Inputs where
  env : List (String × String)
  argv : List String
  configSites : Except String (List (String × List (String × Unit)))

/-- line 57 -/
def AUTH_ERROR : String := "ERROR: No AUTH_TOKEN available for screenshots. Exiting."

/-- line 226 -/
def ARG_ERROR : String :=
  "ERROR: This script takes exactly 1 command line argument. Got the following: "

/-- The whole script run (minus timing): the `AUTH_TOKEN` check (lines
53-58), the argument-count check (lines 225-229), the config load (lines
235-240) — each fatal, printing and exiting 1 — then the capture loop and
the markdown pass. An exception escaping the main body ends the trace with
`Event.uncaught`. -/
def script (inp : Inputs) (w : World) (br : Browser) : List Event :=
  if (List.lookup "AUTH_TOKEN" inp.env).isSome then
    if inp.argv.length = 2 then
      let config_file := inp.argv.getD 1 ""
      match inp.configSites with
      | Except.error e =>
        [Event.printE ("ERROR: Could not open file " ++ config_file ++ ": " ++ e)
          (some "red"), Event.exitCode 1]
      | Except.ok config_sites =>
        let ci := ciFromEnv inp.env
        let sites_dict := build_sites_dict config_sites
        let loadedEv := Event.printE ("    Loaded Config File " ++ config_file ++ ".") none
        let cap : EW (List MdSite) := do
          topologyShot br w
          processSites br w sites_dict
        match cap with
        | (evs, Except.error e) => loadedEv :: (evs ++ [Event.uncaught e])
        | (evs, Except.ok markdown_index) =>
          let created := dirsCreated evs
          let mdHeader := [Event.closeBrowser,
            Event.printE "    Creating changed item Markdown Indexes.." (some "white")]
          match emitSites ci created markdown_index with
          | (mevs, Except.error e) =>
            loadedEv :: (evs ++ mdHeader ++ mevs ++ [Event.uncaught e])
          | (mevs, Except.ok _) => loadedEv :: (evs ++ mdHeader ++ mevs)
    else
      [Event.printE ARG_ERROR (some "red")] ++
        inp.argv.map (fun a => Event.printE a (some "red")) ++ [Event.exitCode 1]
  else
    [Event.printE AUTH_ERROR (some "red"), Event.exitCode 1]

/-- Infix test on character lists, used to state the absence of the CI
lines from the generated markdown. -/
def listHasSub (pat : List Char) : List Char → Bool
  | [] => pat.isEmpty
  | c :: t => List.isPrefixOf pat (c :: t) || listHasSub pat t

/-- Predicate `strOccurs pat s`: true iff `pat` occurs in `s` as a substring. -/
def strOccurs (pat s : String) : Bool :=
  listHasSub pat.data s.data

/-- Screenshot or filesystem output events (as opposed to prints). -/
def isOutputEvent (e : Event) : Bool :=
  match e with
  | Event.mkdir _ => true
  | Event.saveScreenshot _ => true
  | Event.writeFile _ _ => true
  | _ => false

/-- File-write events only. -/
def isWriteEvent (e : Event) : Bool :=
  match e with
  | Event.writeFile _ _ => true
  | _ => false

/-- Fixture: a browser where no wait ever times out and every XPath is
found. -/
def br0 : Browser :=
  { timesOut := fun _ _ _ => false, found := fun _ => true }

/-- Fixture: a browser where every explicit wait times out. -/
def brT : Browser :=
  { timesOut := fun _ _ _ => true, found := fun _ => true }

/-- Fixture: one site `S` with one element `E`, both resolvable, and a
remote API that returns zero interfaces for every element. -/
def w0 : World :=
  { region := "x", sites_n2id := [("S", "sid")], elements_n2id := [("E", "eid")],
    interfaces := fun _ _ => [] }

/-- Fixture: a complete, well-formed run input for `w0` (auth token
present, exactly one argument, readable config with site `S`, element
`E`). -/
def inp0 : Inputs :=
  { env := [("AUTH_TOKEN", "t")], argv := ["screenshot.py", "cfg.yml"],
    configSites := Except.ok [("S", [("E", ())])] }

/-- Fixture shot arguments: a class wait. -/
def argsClass : ShotArgs :=
  { page_uri := "u", output_filename := "f", waitfor := "class",
    waitfor_value := "v" }

/-- Fixture shot arguments: default time wait ("30"), no clicks. -/
def argsTime30 : ShotArgs :=
  { page_uri := "u", output_filename := "f" }

/-- Fixture shot arguments: a time wait with a negative castable value. -/
def argsTimeNeg : ShotArgs :=
  { page_uri := "u", output_filename := "f", waitfor := "time",
    waitfor_value := "-5" }

/-- Fixture shot arguments: a time wait with a non-castable value. -/
def argsTimeAbc : ShotArgs :=
  { page_uri := "u", output_filename := "f", waitfor := "time",
    waitfor_value := "abc" }

/-- Fixture: run input with no `AUTH_TOKEN` in the environment. -/
def inpNoAuth : Inputs :=
  { env := [("HOME", "/root")], argv := ["screenshot.py", "cfg.yml"],
    configSites := Except.ok [] }

/-- Fixture: run input with a token but a missing positional argument. -/
def inpBadArgs : Inputs :=
  { env := [("AUTH_TOKEN", "t")], argv := ["screenshot.py"],
    configSites := Except.ok [] }

/-- Fixture: run input with a token, one argument, and an unreadable
config file. -/
def inpBadCfg : Inputs :=
  { env := [("AUTH_TOKEN", "t")], argv := ["screenshot.py", "cfg.yml"],
    configSites := Except.error "No such file or directory" }

example : is_int "30" = true ∧ pyInt "30" = some 30 := by decide

example : is_int "-5" = true ∧ pyInt "-5" = some (-5) := by decide

example : is_int "abc" = false ∧ is_int "3.5" = false ∧ is_int " 42 " = true := by decide

theorem char_toNat_injective : Function.Injective Char.toNat := by
  intro a b h
  rw [← Char.ofNat_toNat a, ← Char.ofNat_toNat b, h]

theorem mem_iff_toNat_mem (c : Char) (l : List Char) :
    c ∈ l ↔ c.toNat ∈ l.map Char.toNat :=
  (List.mem_map_of_injective char_toNat_injective).symm

theorem isLower_iff_toNat (c : Char) :
    c.isLower = true ↔ 97 ≤ c.toNat ∧ c.toNat ≤ 122 := by
  simp [Char.isLower, Char.toNat, UInt32.le_def, BitVec.le_def, UInt32.toNat]

theorem isUpper_iff_toNat (c : Char) :
    c.isUpper = true ↔ 65 ≤ c.toNat ∧ c.toNat ≤ 90 := by
  simp [Char.isUpper, Char.toNat, UInt32.le_def, BitVec.le_def, UInt32.toNat]

theorem isDigit_iff_toNat (c : Char) :
    c.isDigit = true ↔ 48 ≤ c.toNat ∧ c.toNat ≤ 57 := by
  simp [Char.isDigit, Char.toNat, UInt32.le_def, BitVec.le_def, UInt32.toNat]

/-- The allow-list string of the script and the allow-list described by the
spec contain exactly the same characters. -/
theorem mem_FILENAME_VALID_CHARS_iff (c : Char) :
    FILENAME_VALID_CHARS.data.contains c = allowedChar c := by
  have hmain : c ∈ FILENAME_VALID_CHARS.data ↔ allowedChar c = true := by
    rw [mem_iff_toNat_mem]
    have hcodes : FILENAME_VALID_CHARS.data.map Char.toNat =
        [45, 95, 46, 40, 41, 32,
         97, 98, 99, 100, 101, 102, 103, 104, 105, 106, 107, 108, 109, 110,
         111, 112, 113, 114, 115, 116, 117, 118, 119, 120, 121, 122,
         65, 66, 67, 68, 69, 70, 71, 72, 73, 74, 75, 76, 77, 78, 79, 80,
         81, 82, 83, 84, 85, 86, 87, 88, 89, 90,
         48, 49, 50, 51, 52, 53, 54, 55, 56, 57] := by decide
    have hpunct : ("-_.() ".data.contains c = true) ↔ (c.toNat ∈ [45, 95, 46, 40, 41, 32]) := by
      have h6 : "-_.() ".data.map Char.toNat = [45, 95, 46, 40, 41, 32] := by decide
      rw [List.contains, List.elem_eq_mem, decide_eq_true_eq, mem_iff_toNat_mem, h6]
    rw [hcodes]
    simp only [allowedChar, Char.isAlpha, Bool.or_eq_true, hpunct,
      isLower_iff_toNat, isUpper_iff_toNat, isDigit_iff_toNat]
    simp only [List.mem_cons, List.not_mem_nil, or_false]
    omega
  rw [Bool.eq_iff_iff, List.contains, List.elem_eq_mem, decide_eq_true_eq]
  exact hmain

@[simp] theorem EW_bind_def (x : EW α) (f : α → EW β) : x >>= f = ewBind x f := rfl

@[simp] theorem EW_pure_def (a : α) : (pure a : EW α) = ([], Except.ok a) := rfl

@[simp] theorem ewBind_ok (evs : List Event) (a : α) (f : α → EW β) :
    ewBind (evs, Except.ok a) f = (evs ++ (f a).1, (f a).2) := rfl

@[simp] theorem ewBind_error (evs : List Event) (e : PyError) (f : α → EW β) :
    ewBind (evs, Except.error e) f = (evs, Except.error e) := rfl

@[simp] theorem emit_eq (evs : List Event) : emit evs = (evs, Except.ok ()) := rfl

theorem build_elements_list_eq (l : List (String × β)) :
    build_elements_list l = l.map Prod.fst := by
  have aux : ∀ acc : List String,
      l.foldl (fun acc p => acc ++ [p.1]) acc = acc ++ l.map Prod.fst := by
    induction l with
    | nil => intro acc; simp
    | cons p t ih => intro acc; simp [List.foldl_cons, ih]
  simpa using aux []

theorem build_sites_dict_eq (cs : List (String × List (String × β))) :
    build_sites_dict cs = cs.map (fun p => (p.1, p.2.map Prod.fst)) := by
  have aux : ∀ acc : List (String × List String),
      cs.foldl (fun acc p => acc ++ [(p.1, build_elements_list p.2)]) acc =
        acc ++ cs.map (fun p => (p.1, p.2.map Prod.fst)) := by
    induction cs with
    | nil => intro acc; simp
    | cons p t ih =>
      intro acc
      rw [List.foldl_cons, ih]
      simp [build_elements_list_eq]
  simpa using aux []

/-- C3: `sanitize_filename` returns exactly the subsequence of its input
made of characters from the allow-list `-_.() ` plus ASCII letters and
digits; every character outside the allow-list is dropped and nothing else
changes (the kept characters form a sublist of the input, in order). -/
theorem c3_sanitize_is_allowlist_filter (s : String) :
    sanitize_filename s = ⟨s.data.filter allowedChar⟩ ∧
      (sanitize_filename s).data.Sublist s.data := by
  constructor
  · unfold sanitize_filename
    congr 1
    apply List.filter_congr
    intro c _
    exact mem_FILENAME_VALID_CHARS_iff c
  · unfold sanitize_filename
    exact List.filter_sublist s.data

/-- C4: the filename sanitizer is idempotent. -/
theorem c4_sanitize_idempotent (s : String) :
    sanitize_filename (sanitize_filename s) = sanitize_filename s := by
  unfold sanitize_filename
  simp [List.filter_filter]

/-- C5: the derived sites-to-elements structure has exactly one entry per
site of the loaded config, in file order, and the entry of each site
lists exactly that site's element names, in file order. -/
theorem c5_sites_dict_shape (cs : List (String × List (String × β))) :
    (build_sites_dict cs).length = cs.length ∧
      ∀ i (h1 : i < (build_sites_dict cs).length) (h2 : i < cs.length),
        (build_sites_dict cs).get ⟨i, h1⟩ =
          ((cs.get ⟨i, h2⟩).1, (cs.get ⟨i, h2⟩).2.map Prod.fst) := by
  rw [build_sites_dict_eq]
  refine ⟨by simp, ?_⟩
  intro i h1 h2
  simp [List.get_eq_getElem, List.getElem_map]

/-- Witness for C5 at a one-site, one-element config. -/
theorem c5_witness :
    (build_sites_dict [("S", [("E", ())])]).length = 1 ∧
      (build_sites_dict [("S", [("E", ())])]).get ⟨0, by decide⟩ = ("S", ["E"]) := by
  have h := c5_sites_dict_shape (β := Unit) [("S", [("E", ())])]
  exact ⟨h.1, h.2 0 (by decide) (by decide)⟩

theorem sleep_not_in_clickAttempt (br : Browser) (xp : Option String) (n : Int) :
    Event.sleep n ∉ (clickAttempt br xp).1 := by
  cases xp with
  | none => simp [clickAttempt]
  | some x =>
    simp only [clickAttempt]
    split <;> simp

theorem shotTail_mem_sleep (br : Browser) (a : ShotArgs) :
    Event.sleep (a.load_tweak_delay : Int) ∈ shotTail br a := by
  simp [shotTail]

theorem shotTail_mem_save (br : Browser) (a : ShotArgs) :
    Event.saveScreenshot a.output_filename ∈ shotTail br a := by
  simp [shotTail]

theorem shotTail_sleep_only_tweak (br : Browser) (a : ShotArgs) (n : Int)
    (hn : Event.sleep n ∈ shotTail br a) : n = (a.load_tweak_delay : Int) := by
  simp only [shotTail, List.mem_append, List.mem_cons, List.mem_singleton,
    List.not_mem_nil] at hn
  rcases hn with ((((h | h) | h) | h) | h)
  · simp at h
  · exact absurd h (sleep_not_in_clickAttempt br a.click_xpath n)
  · exact absurd h (sleep_not_in_clickAttempt br a.click_xpath2 n)
  · revert h
    split <;> simp
  · simp at h
    tauto

/-- C7: when a class or id wait strategy times out, `screenshot_page`
swallows the `TimeoutException`: it prints the warning, returns normally
(no exception), and still runs the click attempts, the settle delay and
the screenshot write. -/
theorem c7_timeout_swallowed (br : Browser) (a : ShotArgs)
    (h : (pyLower a.waitfor = "class" ∧
            br.timesOut a.page_uri "class" a.waitfor_value = true) ∨
         (pyLower a.waitfor = "id" ∧
            br.timesOut a.page_uri "id" a.waitfor_value = true)) :
    screenshot_page br a =
      ([Event.navigate a.page_uri, Event.printE (timeoutWarning a) (some "yellow")] ++
        shotTail br a, Except.ok ()) ∧
    Event.sleep (a.load_tweak_delay : Int) ∈ (screenshot_page br a).1 ∧
    Event.saveScreenshot a.output_filename ∈ (screenshot_page br a).1 := by
  have htry : tryPhase br a =
      ([Event.navigate a.page_uri, Event.printE (timeoutWarning a) (some "yellow")],
        Except.ok ()) := by
    rcases h with ⟨hw, ht⟩ | ⟨hw, ht⟩ <;> simp [tryPhase, hw, ht]
  have hmain : screenshot_page br a =
      ([Event.navigate a.page_uri, Event.printE (timeoutWarning a) (some "yellow")] ++
        shotTail br a, Except.ok ()) := by
    unfold screenshot_page
    rw [htry]
  refine ⟨hmain, ?_, ?_⟩
  · rw [hmain]
    simp only [List.mem_append]
    exact Or.inr (shotTail_mem_sleep br a)
  · rw [hmain]
    simp only [List.mem_append]
    exact Or.inr (shotTail_mem_save br a)

/-- Witness for C7: every wait times out in `brT`; the screenshot of
`argsClass` still warns, clicks, settles and saves. -/
theorem c7_witness :
    (pyLower argsClass.waitfor = "class" ∧
      brT.timesOut argsClass.page_uri "class" argsClass.waitfor_value = true) ∧
    (screenshot_page brT argsClass =
      ([Event.navigate argsClass.page_uri,
        Event.printE (timeoutWarning argsClass) (some "yellow")] ++
        shotTail brT argsClass, Except.ok ()) ∧
     Event.sleep (argsClass.load_tweak_delay : Int) ∈ (screenshot_page brT argsClass).1 ∧
     Event.saveScreenshot argsClass.output_filename ∈ (screenshot_page brT argsClass).1) :=
  ⟨⟨by decide, by decide⟩,
    c7_timeout_swallowed brT argsClass (Or.inl ⟨by decide, by decide⟩)⟩

/-- Counterexample to C8 as stated: `"-5"` is castable to an integer
(`is_int` succeeds) and both click targets are absent, yet
`screenshot_page` raises (the `ValueError` from `time.sleep(-5)` is not a
`TimeoutException`, so nothing catches it) and no screenshot is written. -/
theorem c8_counterexample :
    is_int argsTimeNeg.waitfor_value = true ∧
    argsTimeNeg.waitfor = "time" ∧
    argsTimeNeg.click_xpath = none ∧ argsTimeNeg.click_xpath2 = none ∧
    screenshot_page br0 argsTimeNeg =
      ([Event.navigate "u"], Except.error PyError.valueError) := by
  refine ⟨by decide, rfl, rfl, rfl, ?_⟩
  rfl

/-- C8 amended: with `waitfor="time"`, a `waitfor_value` castable to a
*nonnegative* integer, and both click targets absent, the routine performs
the fixed-duration sleep of that many seconds, raises no exception, and
writes the screenshot to the given output path. -/
theorem c8_amended_nonneg_sleep (br : Browser) (a : ShotArgs) (n : Int)
    (h1 : a.waitfor = "time") (h2 : pyInt a.waitfor_value = some n) (h3 : 0 ≤ n)
    (h4 : a.click_xpath = none) (h5 : a.click_xpath2 = none) :
    screenshot_page br a =
      ([Event.navigate a.page_uri, Event.sleep n, Event.implicitWait 0,
        Event.implicitWait DEFAULT_IMPLICIT_WAIT,
        Event.sleep (a.load_tweak_delay : Int),
        Event.saveScreenshot a.output_filename], Except.ok ()) := by
  have hlow : pyLower a.waitfor = "time" := by rw [h1]; decide
  have htry : tryPhase br a =
      ([Event.navigate a.page_uri, Event.sleep n], Except.ok ()) := by
    simp only [tryPhase, hlow]
    simp [is_int, h2, show ¬ n < 0 by omega]
  have htail : shotTail br a =
      [Event.implicitWait 0, Event.implicitWait DEFAULT_IMPLICIT_WAIT,
       Event.sleep (a.load_tweak_delay : Int),
       Event.saveScreenshot a.output_filename] := by
    simp [shotTail, h4, h5, clickAttempt, pyTruthy]
  unfold screenshot_page
  rw [htry, htail]
  rfl

/-- Witness for C8 (amended) at the default arguments (`"30"`). -/
theorem c8_witness :
    (argsTime30.waitfor = "time" ∧ pyInt argsTime30.waitfor_value = some 30 ∧
      (0 : Int) ≤ 30 ∧ argsTime30.click_xpath = none ∧
      argsTime30.click_xpath2 = none) ∧
    screenshot_page br0 argsTime30 =
      ([Event.navigate argsTime30.page_uri, Event.sleep 30, Event.implicitWait 0,
        Event.implicitWait DEFAULT_IMPLICIT_WAIT,
        Event.sleep (argsTime30.load_tweak_delay : Int),
        Event.saveScreenshot argsTime30.output_filename], Except.ok ()) :=
  ⟨⟨rfl, by decide, by decide, rfl, rfl⟩,
    c8_amended_nonneg_sleep br0 argsTime30 30 rfl (by decide) (by decide) rfl rfl⟩

/-- C10: with `waitfor="time"` and a non-castable `waitfor_value`, the wait
step is silently skipped — no exception, no hard sleep — and the routine
proceeds directly to the click attempts, the settle delay and the
screenshot; the only sleep in the whole call is the settle delay. -/
theorem c10_non_castable_silent (br : Browser) (a : ShotArgs)
    (h1 : a.waitfor = "time") (h2 : is_int a.waitfor_value = false) :
    screenshot_page br a =
      (Event.navigate a.page_uri :: shotTail br a, Except.ok ()) ∧
    (∀ n : Int, Event.sleep n ∈ (screenshot_page br a).1 →
      n = (a.load_tweak_delay : Int)) := by
  have hlow : pyLower a.waitfor = "time" := by rw [h1]; decide
  have htry : tryPhase br a = ([Event.navigate a.page_uri], Except.ok ()) := by
    simp only [tryPhase, hlow]
    simp [h2]
  have hmain : screenshot_page br a =
      (Event.navigate a.page_uri :: shotTail br a, Except.ok ()) := by
    unfold screenshot_page
    rw [htry]
    rfl
  refine ⟨hmain, ?_⟩
  intro n hn
  rw [hmain] at hn
  simp only [List.mem_cons] at hn
  rcases hn with h | h
  · cases h
  · exact shotTail_sleep_only_tweak br a n h

/-- Witness for C10 at the non-castable value `"abc"`. -/
theorem c10_witness :
    (argsTimeAbc.waitfor = "time" ∧ is_int argsTimeAbc.waitfor_value = false) ∧
    (screenshot_page br0 argsTimeAbc =
      (Event.navigate argsTimeAbc.page_uri :: shotTail br0 argsTimeAbc,
        Except.ok ()) ∧
     (∀ n : Int, Event.sleep n ∈ (screenshot_page br0 argsTimeAbc).1 →
       n = (argsTimeAbc.load_tweak_delay : Int))) :=
  ⟨⟨rfl, by decide⟩, c10_non_castable_silent br0 argsTimeAbc rfl (by decide)⟩

/-- C2: a site name absent from the resolved site name-to-ID mapping only
prints a warning and is skipped: its loop iteration contributes no
directory creation (no events at all beyond the warning), it adds no
record to the markdown index, and the remaining sites are processed
exactly as if the skipped site were not there. -/
theorem c2_unknown_site_skipped (br : Browser) (w : World) (bad : String)
    (els : List String) (rest : List (String × List String))
    (h : List.lookup bad w.sites_n2id = none) :
    processSites br w ((bad, els) :: rest) =
      (Event.printE (siteSkipWarning bad) (some "yellow") ::
        (processSites br w rest).1,
       (processSites br w rest).2) := by
  simp only [processSites, h]
  simp [ewBind]

/-- Witness for C2: unknown site `X` before known site `S` in `w0`. -/
theorem c2_witness :
    List.lookup "X" w0.sites_n2id = none ∧
    processSites br0 w0 [("X", ["E"]), ("S", ["E"])] =
      (Event.printE (siteSkipWarning "X") (some "yellow") ::
        (processSites br0 w0 [("S", ["E"])]).1,
       (processSites br0 w0 [("S", ["E"])]).2) :=
  ⟨by decide, c2_unknown_site_skipped br0 w0 "X" ["E"] [("S", ["E"])] (by decide)⟩

/-- C6: each of the three fatal failures — missing `AUTH_TOKEN`, an
argument count other than one positional argument, an unreadable config
file — prints its error and exits 1, with no screenshot, directory or
markdown-file output in the trace. -/
theorem c6_fatal_failures (i1 i2 i3 : Inputs) (w : World) (br : Browser) (e : String)
    (h1 : List.lookup "AUTH_TOKEN" i1.env = none)
    (h2a : (List.lookup "AUTH_TOKEN" i2.env).isSome = true)
    (h2b : i2.argv.length ≠ 2)
    (h3a : (List.lookup "AUTH_TOKEN" i3.env).isSome = true)
    (h3b : i3.argv.length = 2)
    (h3c : i3.configSites = Except.error e) :
    (script i1 w br = [Event.printE AUTH_ERROR (some "red"), Event.exitCode 1] ∧
      (script i1 w br).all (fun ev => !(isOutputEvent ev)) = true) ∧
    (script i2 w br =
      [Event.printE ARG_ERROR (some "red")] ++
        i2.argv.map (fun a => Event.printE a (some "red")) ++ [Event.exitCode 1] ∧
      (script i2 w br).all (fun ev => !(isOutputEvent ev)) = true) ∧
    (script i3 w br =
      [Event.printE ("ERROR: Could not open file " ++ i3.argv.getD 1 "" ++ ": " ++ e)
        (some "red"), Event.exitCode 1] ∧
      (script i3 w br).all (fun ev => !(isOutputEvent ev)) = true) := by
  have e1 : script i1 w br = [Event.printE AUTH_ERROR (some "red"), Event.exitCode 1] := by
    simp [script, h1]
  have e2 : script i2 w br =
      [Event.printE ARG_ERROR (some "red")] ++
        i2.argv.map (fun a => Event.printE a (some "red")) ++ [Event.exitCode 1] := by
    simp [script, h2a, h2b]
  have e3 : script i3 w br =
      [Event.printE ("ERROR: Could not open file " ++ i3.argv.getD 1 "" ++ ": " ++ e)
        (some "red"), Event.exitCode 1] := by
    simp [script, h3a, h3b, h3c]
  refine ⟨⟨e1, ?_⟩, ⟨e2, ?_⟩, ⟨e3, ?_⟩⟩
  · rw [e1]; decide
  · rw [e2]
    simp [List.all_append, List.all_map, isOutputEvent, Function.comp]
  · rw [e3]; simp [isOutputEvent]

/-- Witness for C6 at three concrete inputs, one per fatal failure. -/
theorem c6_witness :
    (script inpNoAuth w0 br0 =
        [Event.printE AUTH_ERROR (some "red"), Event.exitCode 1] ∧
      (script inpNoAuth w0 br0).all (fun ev => !(isOutputEvent ev)) = true) ∧
    (script inpBadArgs w0 br0 =
        [Event.printE ARG_ERROR (some "red")] ++
          inpBadArgs.argv.map (fun a => Event.printE a (some "red")) ++
          [Event.exitCode 1] ∧
      (script inpBadArgs w0 br0).all (fun ev => !(isOutputEvent ev)) = true) ∧
    (script inpBadCfg w0 br0 =
        [Event.printE ("ERROR: Could not open file " ++ inpBadCfg.argv.getD 1 "" ++
          ": " ++ "No such file or directory") (some "red"), Event.exitCode 1] ∧
      (script inpBadCfg w0 br0).all (fun ev => !(isOutputEvent ev)) = true) :=
  c6_fatal_failures inpNoAuth inpBadArgs inpBadCfg w0 br0 "No such file or directory"
    (by decide) (by decide) (by decide) (by decide) (by decide) rfl

/-- C9: with none of the recognized CI environment variables present, the
CI metadata is all `None`, and each of the three markdown templates (site
readme, element readme, interface readme) omits the commit block and the
build-id/build-URL block entirely: the generated text is the bare header
followed by the fixed tail, and the fixed parts contain no "commit", no
"job id" and no "None" placeholder text anywhere. -/
theorem c9_no_ci_lines (env : List (String × String))
    (h1 : List.lookup "TRAVIS_BUILD_NUMBER" env = none)
    (h2 : List.lookup "TRAVIS_BUILD_WEB_URL" env = none)
    (h3 : List.lookup "BUILD_ID" env = none)
    (h4 : List.lookup "BUILD_URL" env = none) :
    ciFromEnv env =
      { system := none, commit := none, buildId := none, buildUrl := none } ∧
    (∀ site : MdSite, site_readme_full (ciFromEnv env) site =
      "## Site: " ++ site.name ++ SITE_README_TAIL ++
        String.join (site.elements.map siteElementItem) ++ "</ul>\n") ∧
    (∀ name : String, element_readme_md (ciFromEnv env) name =
      "## Element: " ++ name ++ ELEMENT_README_TAIL) ∧
    (∀ e : MdElement, interface_readme_full (ciFromEnv env) e =
      "## Element: " ++ e.name ++ " Interfaces" ++ INTERFACE_README_TAIL ++
        String.join (e.interfaces.map interfaceBlock)) ∧
    (strOccurs "commit" SITE_README_TAIL = false ∧
      strOccurs "job id" SITE_README_TAIL = false ∧
      strOccurs "None" SITE_README_TAIL = false) ∧
    (strOccurs "commit" ELEMENT_README_TAIL = false ∧
      strOccurs "job id" ELEMENT_README_TAIL = false ∧
      strOccurs "None" ELEMENT_README_TAIL = false) ∧
    (strOccurs "commit" INTERFACE_README_TAIL = false ∧
      strOccurs "job id" INTERFACE_README_TAIL = false ∧
      strOccurs "None" INTERFACE_README_TAIL = false) := by
  have hci : ciFromEnv env =
      { system := none, commit := none, buildId := none, buildUrl := none } := by
    simp [ciFromEnv, h1, h3]
  have hcommit : ciCommitBlock (ciFromEnv env) = "" := by
    rw [hci]; rfl
  have hsystem : ciSystemBlock (ciFromEnv env) = "" := by
    rw [hci]; rfl
  refine ⟨hci, ?_, ?_, ?_, ⟨by decide, by decide, by decide⟩,
    ⟨by decide, by decide, by decide⟩, ⟨by decide, by decide, by decide⟩⟩
  · intro site
    simp [site_readme_full, site_readme_header, hcommit, hsystem]
  · intro name
    simp [element_readme_md, hcommit, hsystem]
  · intro e
    simp [interface_readme_full, interface_readme_header, hcommit, hsystem]

/-- Witness for C9 at a CI-free environment. -/
theorem c9_witness :
    ciFromEnv [("AUTH_TOKEN", "t")] =
      { system := none, commit := none, buildId := none, buildUrl := none } ∧
    element_readme_md (ciFromEnv [("AUTH_TOKEN", "t")]) "E" =
      "## Element: " ++ "E" ++ ELEMENT_README_TAIL :=
  have h := c9_no_ci_lines [("AUTH_TOKEN", "t")] (by decide) (by decide)
    (by decide) (by decide)
  ⟨h.1, h.2.2.1 "E"⟩

/-- C1 (against the claim): on a run where the remote API returns zero
interfaces for element `E` of site `S`, the capture loop correctly skips
creating the `interfaces` subdirectory (the site and element directories
are created), but the markdown pass then unconditionally opens
`screenshots/S/E/interfaces/README.md` for writing; its parent directory
does not exist, so the `open` raises `FileNotFoundError`, the exception
escapes, and the run aborts before writing any markdown file at all — the
rest of the run does not proceed normally. -/
theorem c1_zero_interfaces_crash :
    Event.mkdir "screenshots/S/" ∈ script inp0 w0 br0 ∧
    Event.mkdir "screenshots/S/E/" ∈ script inp0 w0 br0 ∧
    Event.mkdir "screenshots/S/E/interfaces/" ∉ script inp0 w0 br0 ∧
    (script inp0 w0 br0).all (fun ev => !(isWriteEvent ev)) = true ∧
    Event.uncaught (PyError.fileNotFound "screenshots/S/E/interfaces/README.md")
      ∈ script inp0 w0 br0 := by
  decide
